import Mathlib

/-!
Shallow embedding of the cobitis-esp32c3 firmware core (src/measurements.rs,
src/network.rs, src/display.rs) and proofs of the specified properties.

Modelling conventions:
- f32 arithmetic is embedded exactly over the rationals (the decimal literals
  appearing in the source are exact in ℚ); Rust f32::round (round half away
  from zero) is embedded as rustRound.
- Fallible hardware and radio operations are parameters of type Except String
  (the anyhow error is modelled as its message string); the outcome of the
  i-th attempt of a retried operation is given by a function from the attempt
  index.
- Each tokio RwLock cache is an Option value; one producer cycle maps the old
  cache contents to the new contents, and a run of the process folds the
  per-cycle outcomes over the cache, mirroring the worker loops that swallow
  per-cycle errors and keep looping.
-/

namespace Cobitis

/-- Rust Ord::clamp for integers (requires lo ≤ hi, which holds at the one
call site, clamp(0, 100)). -/
def rustClamp (x lo hi : ℤ) : ℤ := max lo (min hi x)

/-- Rust f32::round: round half away from zero, exact over ℚ. -/
def rustRound (q : ℚ) : ℤ := if 0 ≤ q then ⌊q + 1 / 2⌋ else -⌊-q + 1 / 2⌋

/-- network.rs: enum SignalQuality, with Unreliable as the derived Default. -/
inductive SignalQuality : Type
  | Unreliable
  | Poor
  | Fair
  | Good
  | Excellent
deriving DecidableEq

/-- network.rs: the derived Default (the variant annotated with the default
attribute is Unreliable). -/
def signalQualityDefault : SignalQuality := .Unreliable

/-- network.rs: impl From of SignalQuality for i32. -/
def SignalQuality.toI32 : SignalQuality → ℤ
  | .Unreliable => 0
  | .Poor => 1
  | .Fair => 2
  | .Good => 3
  | .Excellent => 4

/-- network.rs lines 68-83: SignalQuality::from_rssi. The RangeInclusive
contains calls become conjunctions of bounds. -/
def SignalQuality.from_rssi (rssi : ℤ) : SignalQuality :=
  let r := rustClamp (-rssi) 0 100
  if 0 ≤ r ∧ r ≤ 50 then .Excellent
  else if 51 ≤ r ∧ r ≤ 60 then .Good
  else if 61 ≤ r ∧ r ≤ 70 then .Fair
  else if 71 ≤ r ∧ r ≤ 85 then .Poor
  else .Unreliable

/-- Modelled from the spec's words (section 4.4 step 3 and section 8): the
magnitude of the RSSI, computed by negating the input, is clamped to
[0, 100] and bucketed by the fixed thresholds 0-50 Excellent, 51-60 Good,
61-70 Fair, 71-85 Poor, otherwise Unreliable. Used only to be compared
against the source-derived from_rssi. -/
def specSignalClass (rssi : ℤ) : SignalQuality :=
  let m := max 0 (min 100 (-rssi))
  if 0 ≤ m ∧ m ≤ 50 then .Excellent
  else if 51 ≤ m ∧ m ≤ 60 then .Good
  else if 61 ≤ m ∧ m ≤ 70 then .Fair
  else if 71 ≤ m ∧ m ≤ 85 then .Poor
  else .Unreliable

/-- C2: signal classification is a pure total function of the integer RSSI:
it agrees everywhere with the spec's clamp-then-bucket description, and the
ten sample inputs of the spec produce exactly the listed qualities. -/
theorem from_rssi_matches_spec :
    (∀ rssi : ℤ, SignalQuality.from_rssi rssi = specSignalClass rssi) ∧
    SignalQuality.from_rssi (-50) = .Excellent ∧
    SignalQuality.from_rssi (-51) = .Good ∧
    SignalQuality.from_rssi (-60) = .Good ∧
    SignalQuality.from_rssi (-61) = .Fair ∧
    SignalQuality.from_rssi (-70) = .Fair ∧
    SignalQuality.from_rssi (-71) = .Poor ∧
    SignalQuality.from_rssi (-85) = .Poor ∧
    SignalQuality.from_rssi (-86) = .Unreliable ∧
    SignalQuality.from_rssi (-150) = .Unreliable ∧
    SignalQuality.from_rssi (-200) = .Unreliable := by
  refine ⟨fun rssi => ?_, by decide, by decide, by decide, by decide, by decide,
    by decide, by decide, by decide, by decide, by decide⟩
  simp only [SignalQuality.from_rssi, specSignalClass, rustClamp]

/-- C10: every RSSI at or above -50 (including 0 and arbitrarily large
positive, physically invalid, values) classifies as Excellent, because the
negated input is clamped below at 0 before bucketing. -/
theorem from_rssi_ge_neg50_excellent (rssi : ℤ) (h : -50 ≤ rssi) :
    SignalQuality.from_rssi rssi = .Excellent := by
  have h0 : 0 ≤ rustClamp (-rssi) 0 100 := le_max_left 0 _
  have h1 : rustClamp (-rssi) 0 100 ≤ 50 := by
    have hm : min 100 (-rssi) ≤ 50 := le_trans (min_le_right _ _) (by omega)
    simp only [rustClamp]
    omega
  simp only [SignalQuality.from_rssi]
  rw [if_pos ⟨h0, h1⟩]

/-- Witness for from_rssi_ge_neg50_excellent at rssi = 0 and at a huge
positive invalid value. -/
theorem from_rssi_ge_neg50_excellent_witness :
    SignalQuality.from_rssi 0 = .Excellent ∧
    SignalQuality.from_rssi 1000000000 = .Excellent :=
  ⟨from_rssi_ge_neg50_excellent 0 (by decide),
   from_rssi_ge_neg50_excellent 1000000000 (by decide)⟩

/-- measurements.rs: struct Values. The f32 fields are embedded as exact
rationals, the i64 timestamp as ℤ. -/
structure Values : Type where
  timestamp : ℤ
  temperature : ℚ
  tds : ℚ
deriving DecidableEq

/-- measurements.rs: const RETRY_COUNT = 3 (as a loop-iteration count). -/
def RETRY_COUNT : ℕ := 3

/-- measurements.rs line 174. -/
def MAX_VOLTAGE : ℚ := 4.096

/-- measurements.rs line 175. -/
def MAX_RAW_VALUE : ℚ := 32767.0

/-- measurements.rs lines 183-189, the pure tail of read_tds: temperature
compensation followed by the calibration cubic, with f32::round at the end
(powi 3 and powi 2 are the cubes and squares). -/
def tdsFromVoltage (temperature voltage : ℚ) : ℚ :=
  let coefficient := 1.0 + 0.02 * (temperature - 25.0)
  let v := voltage / coefficient
  let tds := (133.42 * v ^ 3 - 255.86 * v ^ 2 + 857.39 * v) * 0.5
  (rustRound tds : ℚ)

/-- measurements.rs lines 170-190: read_tds. The single blocking ADC
conversion is the parameter raw (the i16 code as an integer); its failure is
propagated, otherwise the code is scaled to a voltage by the full-scale
range and fed to the compensation-and-cubic pipeline. -/
def read_tds (raw : Except String ℤ) (temperature : ℚ) : Except String ℚ :=
  match raw with
  | .error e => .error e
  | .ok r => .ok (tdsFromVoltage temperature ((r : ℚ) * MAX_VOLTAGE / MAX_RAW_VALUE))

/-- Modelled from the spec's words (section 4.3 step 5): the temperature
compensated voltage. Used only to be compared against tdsFromVoltage. -/
def specCompensatedVoltage (temperature voltage : ℚ) : ℚ :=
  voltage / (1 + 0.02 * (temperature - 25))

/-- Modelled from the spec's words (section 4.3 step 6): the calibration
cubic before rounding. Used only to be compared against tdsFromVoltage. -/
def specTdsCubic (v : ℚ) : ℚ :=
  (133.42 * v ^ 3 - 255.86 * v ^ 2 + 857.39 * v) * 0.5

/-- C3: the dissolved-solids computation equals the spec's pipeline
(compensate, cubic, round to nearest integer ppm) for every temperature and
voltage, and at temperature 25.0 and voltage 1.000 the divisor is 1, the
cubic yields 367.475 and the rounded result is 367. -/
theorem tds_pipeline_matches_spec :
    (∀ t v : ℚ, tdsFromVoltage t v = (rustRound (specTdsCubic (specCompensatedVoltage t v)) : ℚ)) ∧
    specCompensatedVoltage 25 1 = 1 ∧
    specTdsCubic 1 = 367.475 ∧
    rustRound 367.475 = 367 ∧
    tdsFromVoltage 25 1 = 367 := by
  have hpipe : ∀ t v : ℚ,
      tdsFromVoltage t v = (rustRound (specTdsCubic (specCompensatedVoltage t v)) : ℚ) := by
    intro t v
    simp only [tdsFromVoltage, specTdsCubic, specCompensatedVoltage]
    norm_num
  have hround : rustRound 367.475 = 367 := by
    have : (0 : ℚ) ≤ 367.475 := by norm_num
    rw [rustRound, if_pos this]
    rw [show (367.475 : ℚ) + 1 / 2 = 367.975 by norm_num]
    rw [Int.floor_eq_iff]
    norm_num
  refine ⟨hpipe, by norm_num [specCompensatedVoltage], by norm_num [specTdsCubic], hround, ?_⟩
  rw [hpipe 25 1]
  rw [show specCompensatedVoltage 25 1 = 1 by norm_num [specCompensatedVoltage]]
  rw [show specTdsCubic 1 = 367.475 by norm_num [specTdsCubic], hround]
  norm_num

/-- network.rs: struct Status. -/
structure Status : Type where
  signal_quality : SignalQuality
deriving DecidableEq

/-- measurements.rs lines 126-146: the effect of one update call on the
VALUES cache, composed with the worker loop that logs and swallows a failed
cycle: a cycle that produced values replaces the whole cache contents, a
cycle that failed anywhere before the final write leaves the cache as it
was. -/
def measurements_update (cycle : Except String Values) (cache : Option Values) : Option Values :=
  match cycle with
  | .ok values => some values
  | .error _ => cache

/-- network.rs lines 205-222: the effect of one update call on the STATUS
cache, composed with the worker loop that swallows a failed cycle. -/
def network_update (cycle : Except String Status) (cache : Option Status) : Option Status :=
  match cycle with
  | .ok status => some status
  | .error _ => cache

/-- measurements.rs worker loop: fold a sequence of per-cycle outcomes over
the VALUES cache, which starts as RwLock::const_new(None) at process
start. -/
def measurements_run (cache : Option Values) (cycles : List (Except String Values)) : Option Values :=
  cycles.foldl (fun s c => measurements_update c s) cache

/-- network.rs worker loop: fold a sequence of per-cycle outcomes over the
STATUS cache. -/
def network_run (cache : Option Status) (cycles : List (Except String Status)) : Option Status :=
  cycles.foldl (fun s c => network_update c s) cache

/-- Value produced by the most recent successful cycle of a cycle-outcome
list, if any. -/
def lastOk {α : Type} : List (Except String α) → Option α
  | [] => none
  | .ok v :: rest => some ((lastOk rest).getD v)
  | .error _ :: rest => lastOk rest

theorem measurements_run_char (s : Option Values) (cs : List (Except String Values)) :
    measurements_run s cs = (lastOk cs).elim s some := by
  induction cs generalizing s with
  | nil => rfl
  | cons c rest ih =>
    show measurements_run (measurements_update c s) rest = _
    rw [ih]
    cases hl : lastOk rest with
    | some w => cases c <;> simp [lastOk, measurements_update, hl]
    | none => cases c <;> simp [lastOk, measurements_update, hl]

theorem network_run_char (s : Option Status) (cs : List (Except String Status)) :
    network_run s cs = (lastOk cs).elim s some := by
  induction cs generalizing s with
  | nil => rfl
  | cons c rest ih =>
    show network_run (network_update c s) rest = _
    rw [ih]
    cases hl : lastOk rest with
    | some w => cases c <;> simp [lastOk, network_update, hl]
    | none => cases c <;> simp [lastOk, network_update, hl]

theorem lastOk_replicate_error {α : Type} (K : ℕ) (e : String) :
    lastOk (α := α) (List.replicate K (.error e)) = none := by
  induction K with
  | zero => rfl
  | succ n ih => simp [List.replicate, lastOk, ih]

theorem lastOk_mem {α : Type} {cs : List (Except String α)} {v : α}
    (h : lastOk cs = some v) : Except.ok v ∈ cs := by
  induction cs with
  | nil => simp [lastOk] at h
  | cons c rest ih =>
    cases c with
    | ok w =>
      rw [lastOk] at h
      cases hl : lastOk rest with
      | some u =>
        rw [hl] at h
        simp only [Option.getD_some, Option.some_inj] at h
        exact List.mem_cons_of_mem _ (ih (by rw [hl, h]))
      | none =>
        rw [hl] at h
        simp only [Option.getD_none, Option.some_inj] at h
        subst h
        exact List.mem_cons_self _ _
    | error e =>
      rw [lastOk] at h
      exact List.mem_cons_of_mem _ (ih h)

/-- C1: lifecycle of the two snapshot caches. A failed cycle leaves either
cache untouched; a run of cycles ends with the value of the most recent
successful cycle, or the starting contents if none succeeded; starting from
the initial None, the cache is still None exactly when no cycle has yet
succeeded; and one successful cycle followed by K consecutive failed cycles
(any K) still reads back as the successful cycle's value, unchanged. -/
theorem cache_lifecycle_and_staleness :
    (∀ (s : Option Values) (e : String), measurements_update (.error e) s = s) ∧
    (∀ (s : Option Values) (cs : List (Except String Values)),
      measurements_run s cs = (lastOk cs).elim s some) ∧
    (∀ cs : List (Except String Values),
      measurements_run none cs = none ↔ lastOk cs = none) ∧
    (∀ (s : Option Values) (v : Values) (e : String) (K : ℕ),
      measurements_run s (.ok v :: List.replicate K (.error e)) = some v) ∧
    (∀ (s : Option Status) (e : String), network_update (.error e) s = s) ∧
    (∀ (s : Option Status) (cs : List (Except String Status)),
      network_run s cs = (lastOk cs).elim s some) ∧
    (∀ cs : List (Except String Status),
      network_run none cs = none ↔ lastOk cs = none) ∧
    (∀ (s : Option Status) (v : Status) (e : String) (K : ℕ),
      network_run s (.ok v :: List.replicate K (.error e)) = some v) := by
  refine ⟨fun s e => rfl, measurements_run_char, fun cs => ?_, fun s v e K => ?_,
    fun s e => rfl, network_run_char, fun cs => ?_, fun s v e K => ?_⟩
  · rw [measurements_run_char]
    cases lastOk cs <;> simp
  · rw [measurements_run_char]
    simp [lastOk, lastOk_replicate_error]
  · rw [network_run_char]
    cases lastOk cs <;> simp
  · rw [network_run_char]
    simp [lastOk, lastOk_replicate_error]

/-- C4: what any concurrent reader can observe. The writer replaces the
whole cache value in a single store under the write lock, so a reader's
snapshot is the cache after some prefix p of completed cycles; for every
such prefix, the read is either None or Some of the complete value
constructed by one successful cycle of the prefix — never a half-built
value or a mix of fields from two cycles. -/
theorem snapshot_read_no_torn_values :
    (∀ p : List (Except String Values),
      measurements_run none p = none ∨
        ∃ v, Except.ok v ∈ p ∧ measurements_run none p = some v) ∧
    (∀ p : List (Except String Status),
      network_run none p = none ∨
        ∃ st, Except.ok st ∈ p ∧ network_run none p = some st) := by
  constructor
  · intro p
    rw [measurements_run_char]
    cases hl : lastOk p with
    | none => exact Or.inl rfl
    | some v => exact Or.inr ⟨v, lastOk_mem hl, rfl⟩
  · intro p
    rw [network_run_char]
    cases hl : lastOk p with
    | none => exact Or.inl rfl
    | some st => exact Or.inr ⟨st, lastOk_mem hl, rfl⟩

/-- measurements.rs lines 152-167, the retry loop of read_temperature.
Arguments: the outcome of start_temp_measurement and of read_data at each
attempt index, the current attempt index, the last observed read failure
(the mutable err, None before the first failure) and the remaining
attempts (RETRY_COUNT minus the attempts already made). A failing
start_temp_measurement is propagated immediately by the question-mark
operator; a successful read_data returns the temperature rounded to one
decimal; after the last attempt the loop falls through to
Err(err.unwrap()). -/
def readTempLoop (start : ℕ → Except String Unit) (read : ℕ → Except String ℚ) :
    ℕ → Option String → ℕ → Except String ℚ
  | _, err, 0 => .error (err.getD "called Option::unwrap on a None value")
  | i, err, fuel + 1 =>
    match start i with
    | .error e => .error e
    | .ok _ =>
      match read i with
      | .ok data => .ok ((rustRound (data * 10.0) : ℚ) / 10.0)
      | .error e => readTempLoop start read (i + 1) (some e) fuel

/-- measurements.rs lines 148-168: read_temperature. -/
def read_temperature (start : ℕ → Except String Unit) (read : ℕ → Except String ℚ) :
    Except String ℚ :=
  readTempLoop start read 0 none RETRY_COUNT

/-- measurements.rs lines 131-141, the cycle body of update: take the
timestamp, read the temperature, read the TDS value using it, and package
the three fields; the first failure aborts the cycle. -/
def measureCycle (ts : ℤ) (start : ℕ → Except String Unit) (read : ℕ → Except String ℚ)
    (adc : Except String ℤ) : Except String Values :=
  match read_temperature start read with
  | .error e => .error e
  | .ok temperature =>
    match read_tds adc temperature with
    | .error e => .error e
    | .ok tds => .ok ⟨ts, temperature, tds⟩

theorem readTempLoop_none (start : ℕ → Except String Unit) (read : ℕ → Except String ℚ)
    (i : ℕ) (e : String) : readTempLoop start read i (some e) 0 = .error e := rfl

theorem readTempLoop_three (start : ℕ → Except String Unit) (read : ℕ → Except String ℚ)
    (i : ℕ) (err : Option String) :
    readTempLoop start read i err 3 =
      (match start i with
       | .error e => .error e
       | .ok _ =>
         match read i with
         | .ok data => .ok ((rustRound (data * 10.0) : ℚ) / 10.0)
         | .error e => readTempLoop start read (i + 1) (some e) 2) := rfl

theorem readTempLoop_two (start : ℕ → Except String Unit) (read : ℕ → Except String ℚ)
    (i : ℕ) (err : Option String) :
    readTempLoop start read i err 2 =
      (match start i with
       | .error e => .error e
       | .ok _ =>
         match read i with
         | .ok data => .ok ((rustRound (data * 10.0) : ℚ) / 10.0)
         | .error e => readTempLoop start read (i + 1) (some e) 1) := rfl

theorem readTempLoop_one (start : ℕ → Except String Unit) (read : ℕ → Except String ℚ)
    (i : ℕ) (err : Option String) :
    readTempLoop start read i err 1 =
      (match start i with
       | .error e => .error e
       | .ok _ =>
         match read i with
         | .ok data => .ok ((rustRound (data * 10.0) : ℚ) / 10.0)
         | .error e => readTempLoop start read (i + 1) (some e) 0) := rfl

/-- C5: the per-cycle temperature read retries the fallible read_data up to
3 times. With start_temp_measurement succeeding throughout: if attempt i
(i < 3) is the first read to succeed, its value, rounded to one decimal, is
returned and the later attempts are irrelevant (the hypotheses leave read j
for j > i unconstrained); if all 3 reads fail, the error is the last
observed failure, and the resulting cycle leaves the measurement cache
unchanged. -/
theorem read_temperature_retry_policy :
    (∀ (start : ℕ → Except String Unit) (read : ℕ → Except String ℚ) (i : ℕ) (t : ℚ),
      i < 3 → (∀ j, j ≤ i → start j = .ok ()) → (∀ j, j < i → ∃ e, read j = .error e) →
      read i = .ok t →
      read_temperature start read = .ok ((rustRound (t * 10.0) : ℚ) / 10.0)) ∧
    (∀ (start : ℕ → Except String Unit) (read : ℕ → Except String ℚ) (e : ℕ → String),
      (∀ j, j < 3 → start j = .ok ()) → (∀ j, j < 3 → read j = .error (e j)) →
      read_temperature start read = .error (e 2) ∧
      ∀ (s : Option Values) (ts : ℤ) (adc : Except String ℤ),
        measurements_update (measureCycle ts start read adc) s = s) := by
  constructor
  · intro start read i t hi hs hr hok
    unfold read_temperature RETRY_COUNT
    interval_cases i
    · rw [readTempLoop_three, hs 0 le_rfl, hok]
    · obtain ⟨e0, he0⟩ := hr 0 (by omega)
      rw [readTempLoop_three, hs 0 (by omega), he0]
      show readTempLoop start read 1 (some e0) 2 = _
      rw [readTempLoop_two, hs 1 le_rfl, hok]
    · obtain ⟨e0, he0⟩ := hr 0 (by omega)
      obtain ⟨e1, he1⟩ := hr 1 (by omega)
      rw [readTempLoop_three, hs 0 (by omega), he0]
      show readTempLoop start read 1 (some e0) 2 = _
      rw [readTempLoop_two, hs 1 (by omega), he1]
      show readTempLoop start read 2 (some e1) 1 = _
      rw [readTempLoop_one, hs 2 le_rfl, hok]
  · intro start read e hs hr
    have hfail : read_temperature start read = .error (e 2) := by
      unfold read_temperature RETRY_COUNT
      rw [readTempLoop_three, hs 0 (by omega), hr 0 (by omega)]
      show readTempLoop start read 1 (some (e 0)) 2 = _
      rw [readTempLoop_two, hs 1 (by omega), hr 1 (by omega)]
      show readTempLoop start read 2 (some (e 1)) 1 = _
      rw [readTempLoop_one, hs 2 (by omega), hr 2 (by omega)]
      rfl
    refine ⟨hfail, fun s ts adc => ?_⟩
    rw [show measureCycle ts start read adc = .error (e 2) by
      rw [measureCycle, hfail]]
    rfl

/-- Witness for read_temperature_retry_policy: a sensor failing the first
two read attempts and succeeding on the third yields the third attempt's
value rounded to one decimal, and a sensor failing all three attempts
yields the last failure and no cache update. -/
theorem read_temperature_retry_policy_witness :
    read_temperature (fun _ => .ok ())
      (fun j => if j = 2 then .ok 20.34 else .error ("crc" ++ toString j)) = .ok 20.3 ∧
    read_temperature (fun _ => .ok ()) (fun j => .error ("crc" ++ toString j)) = .error "crc2" ∧
    measurements_update
      (measureCycle 1700000000000 (fun _ => .ok ())
        (fun j => .error ("crc" ++ toString j)) (.ok 8000))
      (some ⟨5, 21.5, 180⟩) = some ⟨5, 21.5, 180⟩ := by
  refine ⟨?_, ?_, ?_⟩
  · have := read_temperature_retry_policy.1 (fun _ => .ok ())
      (fun j => if j = 2 then .ok 20.34 else .error ("crc" ++ toString j)) 2 20.34
      (by omega) (fun j _ => rfl)
      (by intro j hj; interval_cases j <;> exact ⟨_, rfl⟩) rfl
    rw [this]
    rw [show rustRound (20.34 * 10.0) = 203 by
      rw [rustRound, if_pos (by norm_num), Int.floor_eq_iff] <;> norm_num]
    norm_num
  · exact (read_temperature_retry_policy.2 (fun _ => .ok ())
      (fun j => .error ("crc" ++ toString j)) (fun j => "crc" ++ toString j)
      (fun j _ => rfl) (fun j _ => rfl)).1
  · exact (read_temperature_retry_policy.2 (fun _ => .ok ())
      (fun j => .error ("crc" ++ toString j)) (fun j => "crc" ++ toString j)
      (fun j _ => rfl) (fun j _ => rfl)).2 (some ⟨5, 21.5, 180⟩) 1700000000000 (.ok 8000)

/-- One-wire 64-bit device address, split into its family code byte and the
rest (serial and CRC). -/
structure OneWireAddress : Type where
  family_code : ℕ
  rest : ℕ
deriving DecidableEq

/-- ds18b20 crate: FAMILY_CODE = 0x28, the DS18B20 family byte the scan
compares against. -/
def FAMILY_CODE : ℕ := 0x28

/-- A configured DS18B20 driver handle (Ds18b20::new validates the address;
set_config then writes resolution Bits12, successes modelled inside the
construction oracle passed to init_ds18b20). -/
structure Ds18b20 : Type where
  address : OneWireAddress
deriving DecidableEq

/-- measurements.rs line 110: the inter-scan delay in milliseconds. -/
def SCAN_DELAY_MS : ℕ := 1000

/-- measurements.rs lines 97-108, the body of one scan: walk the discovered
addresses in bus order, skip every address whose family code differs from
FAMILY_CODE, and on the first match return the outcome of Ds18b20::new
(an error there is propagated by the question-mark operator, a success is
configured and returned); none if the scan saw no matching device. -/
def scanOnce (devices : List OneWireAddress)
    (new : OneWireAddress → Except String Ds18b20) : Option (Except String Ds18b20) :=
  match devices with
  | [] => none
  | a :: rest =>
    if a.family_code = FAMILY_CODE then some (new a) else scanOnce rest new

/-- measurements.rs lines 96-111, the retry loop of init_ds18b20: i is the
scan number, fuel the remaining scans out of RETRY_COUNT; after the last
scan the function falls through to Err("DS18B20 not found"). scans i is
the device list the bus enumeration yields on scan i. -/
def initDs18b20Loop (scans : ℕ → List OneWireAddress)
    (new : OneWireAddress → Except String Ds18b20) : ℕ → ℕ → Except String Ds18b20
  | _, 0 => .error "DS18B20 not found"
  | i, fuel + 1 =>
    match scanOnce (scans i) new with
    | some r => r
    | none => initDs18b20Loop scans new (i + 1) fuel

/-- measurements.rs lines 88-114: init_ds18b20. -/
def init_ds18b20 (scans : ℕ → List OneWireAddress)
    (new : OneWireAddress → Except String Ds18b20) : Except String Ds18b20 :=
  initDs18b20Loop scans new 0 RETRY_COUNT

theorem scanOnce_none {devices : List OneWireAddress}
    {new : OneWireAddress → Except String Ds18b20}
    (h : ∀ a ∈ devices, a.family_code ≠ FAMILY_CODE) : scanOnce devices new = none := by
  induction devices with
  | nil => rfl
  | cons a rest ih =>
    rw [scanOnce, if_neg (h a (List.mem_cons_self a rest))]
    exact ih fun b hb => h b (List.mem_cons_of_mem a hb)

theorem scanOnce_first_match {pre post : List OneWireAddress} {a : OneWireAddress}
    {new : OneWireAddress → Except String Ds18b20}
    (hpre : ∀ b ∈ pre, b.family_code ≠ FAMILY_CODE) (ha : a.family_code = FAMILY_CODE) :
    scanOnce (pre ++ a :: post) new = some (new a) := by
  induction pre with
  | nil => rw [List.nil_append, scanOnce, if_pos ha]
  | cons b rest ih =>
    rw [List.cons_append, scanOnce, if_neg (hpre b (List.mem_cons_self b rest))]
    exact ih fun c hc => hpre c (List.mem_cons_of_mem b hc)

theorem scanOnce_some {devices : List OneWireAddress}
    {new : OneWireAddress → Except String Ds18b20} {r : Except String Ds18b20}
    (h : scanOnce devices new = some r) :
    ∃ a ∈ devices, a.family_code = FAMILY_CODE ∧ new a = r := by
  induction devices with
  | nil => simp [scanOnce] at h
  | cons a rest ih =>
    rw [scanOnce] at h
    by_cases hf : a.family_code = FAMILY_CODE
    · rw [if_pos hf, Option.some_inj] at h
      exact ⟨a, List.mem_cons_self a rest, hf, h⟩
    · rw [if_neg hf] at h
      obtain ⟨b, hb, hbf, hbr⟩ := ih h
      exact ⟨b, List.mem_cons_of_mem a hb, hbf, hbr⟩

theorem initDs18b20Loop_none (scans : ℕ → List OneWireAddress)
    (new : OneWireAddress → Except String Ds18b20) (i : ℕ) :
    initDs18b20Loop scans new i 0 = .error "DS18B20 not found" := rfl

theorem initDs18b20Loop_step (scans : ℕ → List OneWireAddress)
    (new : OneWireAddress → Except String Ds18b20) (i fuel : ℕ) :
    initDs18b20Loop scans new i (fuel + 1) =
      (match scanOnce (scans i) new with
       | some r => r
       | none => initDs18b20Loop scans new (i + 1) fuel) := rfl

theorem initDs18b20Loop_ok {scans : ℕ → List OneWireAddress}
    {new : OneWireAddress → Except String Ds18b20} {s : Ds18b20} (i fuel : ℕ)
    (h : initDs18b20Loop scans new i fuel = .ok s) :
    ∃ j, i ≤ j ∧ j < i + fuel ∧ ∃ a ∈ scans j, a.family_code = FAMILY_CODE ∧ new a = .ok s := by
  induction fuel generalizing i with
  | zero => rw [initDs18b20Loop_none] at h; exact absurd h (by simp)
  | succ f ih =>
    rw [initDs18b20Loop_step] at h
    cases hscan : scanOnce (scans i) new with
    | some r =>
      rw [hscan] at h
      subst h
      obtain ⟨a, ha, haf, har⟩ := scanOnce_some hscan
      exact ⟨i, le_rfl, by omega, a, ha, haf, har⟩
    | none =>
      rw [hscan] at h
      obtain ⟨j, hj1, hj2, hw⟩ := ih (i + 1) h
      exact ⟨j, by omega, by omega, hw⟩

/-- C6: temperature-sensor initialization scans the bus up to 3 times (with
SCAN_DELAY_MS = 1000 ms between scans), accepts only devices whose family
code is the DS18B20 family code, returns the first matching device
configured (scans after the one containing the first match are never
examined: the hypotheses leave them unconstrained), returns the fatal
error "DS18B20 not found" when all 3 scans see no matching device, and any
successful return came from a matching device on one of the 3 scans. -/
theorem init_ds18b20_scan_policy :
    (∀ (scans : ℕ → List OneWireAddress) (new : OneWireAddress → Except String Ds18b20),
      (∀ i, i < 3 → ∀ a ∈ scans i, a.family_code ≠ FAMILY_CODE) →
      init_ds18b20 scans new = .error "DS18B20 not found") ∧
    (∀ (scans : ℕ → List OneWireAddress) (new : OneWireAddress → Except String Ds18b20)
      (i : ℕ) (pre post : List OneWireAddress) (a : OneWireAddress) (s : Ds18b20),
      i < 3 → (∀ j, j < i → ∀ b ∈ scans j, b.family_code ≠ FAMILY_CODE) →
      scans i = pre ++ a :: post → (∀ b ∈ pre, b.family_code ≠ FAMILY_CODE) →
      a.family_code = FAMILY_CODE → new a = .ok s →
      init_ds18b20 scans new = .ok s) ∧
    (∀ (scans : ℕ → List OneWireAddress) (new : OneWireAddress → Except String Ds18b20)
      (s : Ds18b20), init_ds18b20 scans new = .ok s →
      ∃ i, i < 3 ∧ ∃ a ∈ scans i, a.family_code = FAMILY_CODE ∧ new a = .ok s) ∧
    SCAN_DELAY_MS = 1000 := by
  refine ⟨?_, ?_, ?_, rfl⟩
  · intro scans new h
    unfold init_ds18b20 RETRY_COUNT
    rw [initDs18b20Loop_step, scanOnce_none (h 0 (by omega))]
    rw [initDs18b20Loop_step, scanOnce_none (h 1 (by omega))]
    rw [initDs18b20Loop_step, scanOnce_none (h 2 (by omega))]
    rfl
  · intro scans new i pre post a s hi hprev hscan hpre ha hnew
    have hfound : scanOnce (scans i) new = some (.ok s) := by
      rw [hscan, scanOnce_first_match hpre ha, hnew]
    unfold init_ds18b20 RETRY_COUNT
    interval_cases i
    · rw [initDs18b20Loop_step, hfound]
    · rw [initDs18b20Loop_step, scanOnce_none (hprev 0 (by omega))]
      rw [initDs18b20Loop_step]
      rw [show (0 : ℕ) + 1 = 1 from rfl, hfound]
    · rw [initDs18b20Loop_step, scanOnce_none (hprev 0 (by omega))]
      rw [initDs18b20Loop_step]
      rw [show (0 : ℕ) + 1 = 1 from rfl, scanOnce_none (hprev 1 (by omega))]
      rw [initDs18b20Loop_step]
      rw [show (1 : ℕ) + 1 = 2 from rfl, hfound]
  · intro scans new s h
    obtain ⟨j, hj1, hj2, hw⟩ := initDs18b20Loop_ok 0 RETRY_COUNT h
    exact ⟨j, by rw [RETRY_COUNT] at hj2; omega, hw⟩

/-- Witness for init_ds18b20_scan_policy: with no device ever discovered the
result is the fatal not-found error; with a foreign device (family 0x10)
before a DS18B20 on the second scan, the DS18B20 is returned. -/
theorem init_ds18b20_scan_policy_witness :
    init_ds18b20 (fun _ => []) (fun a => .ok ⟨a⟩) = .error "DS18B20 not found" ∧
    init_ds18b20 (fun i => if i = 1 then [⟨0x10, 7⟩, ⟨0x28, 9⟩] else [])
      (fun a => .ok ⟨a⟩) = .ok ⟨⟨0x28, 9⟩⟩ := by
  constructor
  · exact init_ds18b20_scan_policy.1 (fun _ => []) (fun a => .ok ⟨a⟩)
      (by intro i _ a ha; simp at ha)
  · exact init_ds18b20_scan_policy.2.1
      (fun i => if i = 1 then [⟨0x10, 7⟩, ⟨0x28, 9⟩] else []) (fun a => .ok ⟨a⟩)
      1 [⟨0x10, 7⟩] [] ⟨0x28, 9⟩ ⟨⟨0x28, 9⟩⟩ (by omega)
      (by intro j hj b hb; interval_cases j; simp at hb)
      (by simp) (by intro b hb; simp at hb; subst hb; simp [FAMILY_CODE]) rfl rfl

/-- network.rs line 30: the poll delay in milliseconds. -/
def DELAY : ℕ := 10

/-- network.rs line 31: the poll budget, 10 seconds divided by the 10 ms
delay. -/
def MAX_TIMEOUT : ℕ := 10000 / DELAY

/-- network.rs lines 138-146, the DNS wait loop of connect_and_wait.
dnsReady k is true when sta_netif().get_dns() is no longer unspecified at
the k-th poll; fuel is the remaining poll budget, MAX_TIMEOUT minus the
timeout counter, so the loop checks the DNS at polls 0 .. MAX_TIMEOUT - 1
and returns the timeout error after the MAX_TIMEOUT-th failed check. -/
def waitDnsLoop (dnsReady : ℕ → Bool) : ℕ → ℕ → Except String Unit
  | _, 0 => .error "WiFi connection timeout"
  | k, fuel + 1 => if dnsReady k then .ok () else waitDnsLoop dnsReady (k + 1) fuel

/-- network.rs lines 134-149: connect_and_wait. The wifi.connect() call is
the fallible parameter connect, propagated by the question-mark operator;
then the DNS poll loop runs with the full budget. -/
def connect_and_wait (connect : Except String Unit) (dnsReady : ℕ → Bool) :
    Except String Unit :=
  match connect with
  | .error e => .error e
  | .ok _ => waitDnsLoop dnsReady 0 MAX_TIMEOUT

/-- network.rs lines 206-217, the cycle body of the status update:
reconnect via connect_and_wait when the link reports disconnected
(is_connected().unwrap_or(false) is the isConnected parameter), then read
the RSSI and classify it. The first failure aborts the cycle. -/
def networkCycle (isConnected : Bool) (connect : Except String Unit)
    (dnsReady : ℕ → Bool) (rssi : Except String ℤ) : Except String Status :=
  match (if isConnected then Except.ok () else connect_and_wait connect dnsReady) with
  | .error e => .error e
  | .ok _ =>
    match rssi with
    | .error e => .error e
    | .ok r => .ok ⟨SignalQuality.from_rssi r⟩

/-- network.rs lines 118-132: init_wifi, reduced to its fallible
configuration reads and the connect_and_wait call it propagates with the
question-mark operator (the radio construction and start are collaborator
calls modelled as succeeding; the returned handle is dropped). -/
def init_wifi (ssid psk : Except String String) (connect : Except String Unit)
    (dnsReady : ℕ → Bool) : Except String Unit :=
  match ssid with
  | .error e => .error e
  | .ok _ =>
    match psk with
    | .error e => .error e
    | .ok _ => connect_and_wait connect dnsReady

theorem waitDnsLoop_ok {dnsReady : ℕ → Bool} (k fuel j : ℕ)
    (hj : j < fuel) (hready : dnsReady (k + j) = true) :
    waitDnsLoop dnsReady k fuel = .ok () := by
  induction fuel generalizing k j with
  | zero => omega
  | succ f ih =>
    rw [waitDnsLoop]
    cases hk : dnsReady k with
    | true => rw [if_pos rfl]
    | false =>
      rw [if_neg (by simp)]
      cases j with
      | zero => rw [Nat.add_zero] at hready; rw [hready] at hk; cases hk
      | succ j =>
        exact ih (k + 1) j (by omega) (by rw [show k + 1 + j = k + (j + 1) by omega, hready])

theorem waitDnsLoop_timeout {dnsReady : ℕ → Bool} (k fuel : ℕ)
    (h : ∀ j, j < fuel → dnsReady (k + j) = false) :
    waitDnsLoop dnsReady k fuel = .error "WiFi connection timeout" := by
  induction fuel generalizing k with
  | zero => rfl
  | succ f ih =>
    rw [waitDnsLoop]
    have h0 : dnsReady k = false := by
      have := h 0 (by omega)
      rwa [Nat.add_zero] at this
    rw [if_neg (by simp [h0])]
    exact ih (k + 1) fun j hj => by
      rw [show k + 1 + j = k + (j + 1) by omega]
      exact h (j + 1) (by omega)

theorem networkCycle_reconnect_error {connect : Except String Unit} {dnsReady : ℕ → Bool}
    {rssi : Except String ℤ} {e : String}
    (h : connect_and_wait connect dnsReady = .error e) :
    networkCycle false connect dnsReady rssi = .error e := by
  rw [networkCycle.eq_def]
  rw [show (if false then Except.ok () else connect_and_wait connect dnsReady) =
      connect_and_wait connect dnsReady from rfl]
  rw [h]

/-- C7: connect_and_wait issues the connect request and then polls the DNS
configuration every DELAY = 10 ms with budget MAX_TIMEOUT = 1000 polls
(10 seconds): it succeeds as soon as some poll within the budget observes a
usable (non-unspecified) DNS address, and returns the timeout error when no
poll within the budget does; during a steady-state cycle that starts
disconnected such a timeout makes the cycle fail, leaving the status cache
unchanged, while during initialization init_wifi propagates it as a fatal
error. -/
theorem connect_and_wait_policy :
    (DELAY = 10 ∧ MAX_TIMEOUT = 1000) ∧
    (∀ dnsReady : ℕ → Bool, (∃ k, k < MAX_TIMEOUT ∧ dnsReady k = true) →
      connect_and_wait (.ok ()) dnsReady = .ok ()) ∧
    (∀ dnsReady : ℕ → Bool, (∀ k, k < MAX_TIMEOUT → dnsReady k = false) →
      connect_and_wait (.ok ()) dnsReady = .error "WiFi connection timeout") ∧
    (∀ (dnsReady : ℕ → Bool) (connect : Except String Unit) (rssi : Except String ℤ)
      (s : Option Status), (∀ k, k < MAX_TIMEOUT → dnsReady k = false) →
      network_update (networkCycle false connect dnsReady rssi) s = s) ∧
    (∀ (ssid psk : String) (connect : Except String Unit) (dnsReady : ℕ → Bool) (e : String),
      connect_and_wait connect dnsReady = .error e →
      init_wifi (.ok ssid) (.ok psk) connect dnsReady = .error e) := by
  refine ⟨⟨rfl, rfl⟩, ?_, ?_, ?_, ?_⟩
  · intro dnsReady ⟨k, hk, hready⟩
    rw [connect_and_wait]
    exact waitDnsLoop_ok 0 MAX_TIMEOUT k hk (by rwa [Nat.zero_add])
  · intro dnsReady h
    rw [connect_and_wait]
    exact waitDnsLoop_timeout 0 MAX_TIMEOUT fun j hj => by
      rw [Nat.zero_add]
      exact h j hj
  · intro dnsReady connect rssi s h
    have he : ∃ e, connect_and_wait connect dnsReady = .error e := by
      cases connect with
      | error e => exact ⟨e, rfl⟩
      | ok u =>
        refine ⟨"WiFi connection timeout", ?_⟩
        rw [show connect_and_wait (.ok u) dnsReady = waitDnsLoop dnsReady 0 MAX_TIMEOUT from rfl]
        exact waitDnsLoop_timeout 0 MAX_TIMEOUT fun j hj => by
          rw [Nat.zero_add]
          exact h j hj
    obtain ⟨e, he⟩ := he
    rw [networkCycle_reconnect_error he]
    rfl
  · intro ssid psk connect dnsReady e h
    rw [init_wifi, h]

/-- Witness for connect_and_wait_policy: a DNS that becomes usable at poll
3 yields success, one that is never usable within the budget yields the
timeout error, such a timeout leaves a populated status cache unchanged,
and init_wifi propagates the timeout. -/
theorem connect_and_wait_policy_witness :
    connect_and_wait (.ok ()) (fun k => decide (k = 3)) = .ok () ∧
    connect_and_wait (.ok ()) (fun _ => false) = .error "WiFi connection timeout" ∧
    network_update (networkCycle false (.ok ()) (fun _ => false) (.ok (-55)))
      (some ⟨.Good⟩) = some ⟨.Good⟩ ∧
    init_wifi (.ok "myssid") (.ok "mypsk") (.ok ()) (fun _ => false) =
      .error "WiFi connection timeout" := by
  refine ⟨?_, ?_, ?_, ?_⟩
  · exact connect_and_wait_policy.2.1 (fun k => decide (k = 3))
      ⟨3, by rw [MAX_TIMEOUT, DELAY]; omega, by decide⟩
  · exact connect_and_wait_policy.2.2.1 (fun _ => false) (fun k _ => rfl)
  · exact connect_and_wait_policy.2.2.2.1 (fun _ => false) (.ok ()) (.ok (-55))
      (some ⟨.Good⟩) (fun k _ => rfl)
  · exact connect_and_wait_policy.2.2.2.2 "myssid" "mypsk" (.ok ()) (fun _ => false)
      "WiFi connection timeout"
      (connect_and_wait_policy.2.2.1 (fun _ => false) (fun k _ => rfl))

/-- Rust float-to-integer truncation (toward zero), exact over ℚ. -/
def rustTrunc (q : ℚ) : ℤ := if 0 ≤ q then ⌊q⌋ else ⌈q⌉

/-- Rust `as i32` on an f32: truncate toward zero, saturating at the i32
bounds. -/
def f32_as_i32 (q : ℚ) : ℤ := max (-2147483648) (min 2147483647 (rustTrunc q))

/-- network.rs lines 85-90: struct Message, the serialized payload. -/
structure Message : Type where
  timestamp : ℤ
  temperature : ℚ
  tds : ℤ
deriving DecidableEq

/-- network.rs lines 92-100: impl From of measurements::Values for
Message. -/
def Message.from_values (v : Values) : Message :=
  ⟨v.timestamp, v.temperature, f32_as_i32 v.tds⟩

/-- serde_json::to_string of a Message: the object in declaration order.
The decimal rendering of the f32 temperature is modelled by the exact
rational's canonical printer, which is injective like serde's
shortest-roundtrip float printer. -/
def jsonOfMessage (m : Message) : String :=
  "\x7b\"timestamp\":" ++ toString m.timestamp ++ ",\"temperature\":" ++
    toString m.temperature ++ ",\"tds\":" ++ toString m.tds ++ "\x7d"

/-- A response of the embedded HTTP server: status code and body. -/
structure HttpResponse : Type where
  status : ℕ
  body : String
deriving DecidableEq

/-- network.rs line 176. -/
def NO_CONTENT : ℕ := 204

/-- network.rs lines 175-188, the root GET handler of init_http_server:
a populated measurement cache yields an OK (200) response whose body is
the JSON serialization of the cached values converted to a Message; an
empty cache yields status NO_CONTENT with an empty body. -/
def httpRootHandler (cache : Option Values) : HttpResponse :=
  match cache with
  | some values => ⟨200, jsonOfMessage (Message.from_values values)⟩
  | none => ⟨NO_CONTENT, ""⟩

/-- C8: the network responder maps an empty measurement cache to the
distinct no-content outcome, status 204 with an empty body, and a
populated cache to a 200 response whose body is the JSON serialization of
exactly the cached values (fields copied unchanged, the f32 TDS cast to
i32); the two outcomes are never equal. -/
theorem http_root_handler_payload :
    httpRootHandler none = ⟨204, ""⟩ ∧
    (∀ v : Values, httpRootHandler (some v) =
      ⟨200, jsonOfMessage ⟨v.timestamp, v.temperature, f32_as_i32 v.tds⟩⟩) ∧
    (∀ v : Values, httpRootHandler (some v) ≠ httpRootHandler none) := by
  refine ⟨rfl, fun v => rfl, fun v h => ?_⟩
  have := congrArg HttpResponse.status h
  simp [httpRootHandler, NO_CONTENT] at this

/-- Witness for http_root_handler_payload: a concrete cached reading is
served differently from the empty cache. -/
theorem http_root_handler_payload_witness :
    httpRootHandler (some ⟨1700000000000, 20.3, 367⟩) ≠ httpRootHandler none :=
  http_root_handler_payload.2.2 ⟨1700000000000, 20.3, 367⟩

/-- Decimal digits of a natural number, most significant first, with the
final (least significant) digit exposed as a top-level concatenation. -/
def natChars (n : ℕ) : List Char :=
  (if h : n < 10 then [] else natChars (n / 10)) ++ [Nat.digitChar (n % 10)]
decreasing_by exact Nat.div_lt_self (by omega) (by omega)

/-- Decimal digits of an integer with a leading minus sign when
negative. -/
def intChars (n : ℤ) : List Char :=
  (if n < 0 then ['-'] else []) ++ natChars n.natAbs

/-- Right-alignment to a field of w characters with space padding (Rust
width w format alignment; longer strings are not truncated). -/
def padLeft (w : ℕ) (cs : List Char) : List Char :=
  List.replicate (w - cs.length) ' ' ++ cs

/-- display.rs line 150: the text of format with spec v:>7.1 — the value
rounded to one decimal (the cached temperatures are already one-decimal
multiples, so no rounding ties arise), rendered sign, integer part, dot,
tenths digit, right-aligned to width 7. -/
def formatTempF1 (v : ℚ) : List Char :=
  let n := rustRound (v * 10.0)
  padLeft 7 (((if n < 0 then ['-'] else []) ++ natChars (n.natAbs / 10) ++ ['.']) ++
    [Nat.digitChar (n.natAbs % 10)])

/-- display.rs line 161: the text of format with spec v:>7.0 — the value
rounded to an integer (already integral in the firmware), right-aligned to
width 7. -/
def formatTdsF0 (v : ℚ) : List Char :=
  padLeft 7 (intChars (rustRound v))

/-- display.rs line 152: the placeholder text for a missing temperature. -/
def tempPlaceholder : List Char := [' ', ' ', ' ', ' ', '-', '.', '-']

/-- display.rs line 163: the placeholder text for a missing TDS value. -/
def tdsPlaceholder : List Char := [' ', ' ', ' ', ' ', ' ', ' ', '-']

/-- display.rs lines 149-154: temperature text drawn by draw. -/
def drawTempText (temp : Option ℚ) : List Char :=
  match temp with
  | some v => formatTempF1 v
  | none => tempPlaceholder

/-- display.rs lines 160-164: TDS text drawn by draw. -/
def drawTdsText (tds : Option ℚ) : List Char :=
  match tds with
  | some v => formatTdsF0 v
  | none => tdsPlaceholder

/-- display.rs lines 122-125: the signal level drawn as bars, the cached
status defaulted through unwrap_or_default (SignalQuality::default() is
Unreliable) and converted to i32; the bar loop draws one bar per level
from 1 to the level. -/
def drawSignalLevel (st : Option Status) : ℤ :=
  SignalQuality.toI32 ((st.map Status.signal_quality).getD signalQualityDefault)

/-- display.rs draw, lines 114-174: everything the display renders from
the two caches — temperature text, TDS text and signal-bar level. -/
def drawOutput (m : Option Values) (st : Option Status) : List Char × List Char × ℤ :=
  (drawTempText (m.map Values.temperature), drawTdsText (m.map Values.tds),
    drawSignalLevel st)

/-- Counterexample to C9 as stated: with an empty measurement cache, the
display renders a missing link status exactly like Some(Unreliable) — the
claimed distinguishability fails at this concrete input. -/
theorem display_none_vs_unreliable_counterexample :
    drawOutput none none = drawOutput none (some ⟨.Unreliable⟩) := rfl

/-- The last character of a character list. -/
def lastChar (cs : List Char) : Option Char := cs.reverse.head?

theorem lastChar_pad_concat (w : ℕ) (B : List Char) (d : Char) :
    lastChar (padLeft w (B ++ [d])) = some d := by
  simp [lastChar, padLeft, List.reverse_append]

theorem digitChar_ne_dash (k : ℕ) (hk : k < 10) : Nat.digitChar k ≠ '-' := by
  interval_cases k <;> decide

theorem formatTempF1_last (v : ℚ) :
    lastChar (formatTempF1 v) =
      some (Nat.digitChar ((rustRound (v * 10.0)).natAbs % 10)) := by
  simp only [formatTempF1]
  exact lastChar_pad_concat 7 _ _

theorem formatTdsF0_last (v : ℚ) :
    lastChar (formatTdsF0 v) =
      some (Nat.digitChar ((rustRound v).natAbs % 10)) := by
  simp only [formatTdsF0, intChars]
  rw [natChars, ← List.append_assoc]
  exact lastChar_pad_concat 7 _ _

/-- C9 amended: consumers distinguish an empty measurement cache from a
populated one — the HTTP responder by status and emptiness, the display by
dash placeholders that no formatted numeric text equals — but the
display's link-status rendering defaults a missing status to
SignalQuality::default() = Unreliable, so None renders identically to
Some(Unreliable) and is distinguishable exactly from the statuses other
than Unreliable. -/
theorem consumer_none_rendering_amended :
    (∀ v : Values, httpRootHandler (some v) ≠ httpRootHandler none) ∧
    (∀ t : ℚ, formatTempF1 t ≠ tempPlaceholder) ∧
    (∀ d : ℚ, formatTdsF0 d ≠ tdsPlaceholder) ∧
    drawSignalLevel none = drawSignalLevel (some ⟨signalQualityDefault⟩) ∧
    (∀ q : SignalQuality, q ≠ signalQualityDefault →
      drawSignalLevel (some ⟨q⟩) ≠ drawSignalLevel none) := by
  refine ⟨?_, ?_, ?_, rfl, ?_⟩
  · intro v h
    have := congrArg HttpResponse.status h
    simp [httpRootHandler, NO_CONTENT] at this
  · intro t h
    have hl := formatTempF1_last t
    rw [h] at hl
    have hph : lastChar tempPlaceholder = some '-' := rfl
    rw [hph, Option.some_inj] at hl
    exact digitChar_ne_dash _ (Nat.mod_lt _ (by omega)) hl.symm
  · intro d h
    have hl := formatTdsF0_last d
    rw [h] at hl
    have hph : lastChar tdsPlaceholder = some '-' := rfl
    rw [hph, Option.some_inj] at hl
    exact digitChar_ne_dash _ (Nat.mod_lt _ (by omega)) hl.symm
  · intro q hq
    cases q with
    | Unreliable => exact absurd rfl hq
    | Poor => decide
    | Fair => decide
    | Good => decide
    | Excellent => decide

/-- Witness for consumer_none_rendering_amended at concrete inputs: a
sample reading renders differently from the empty cache in both consumers,
and an Excellent status renders differently from a missing one. -/
theorem consumer_none_rendering_amended_witness :
    httpRootHandler (some ⟨1700000000000, 20.3, 367⟩) ≠ httpRootHandler none ∧
    formatTempF1 20.3 ≠ tempPlaceholder ∧
    formatTdsF0 367 ≠ tdsPlaceholder ∧
    drawSignalLevel (some ⟨.Excellent⟩) ≠ drawSignalLevel none :=
  ⟨consumer_none_rendering_amended.1 ⟨1700000000000, 20.3, 367⟩,
   consumer_none_rendering_amended.2.1 20.3,
   consumer_none_rendering_amended.2.2.1 367,
   consumer_none_rendering_amended.2.2.2.2 .Excellent (by decide)⟩

end Cobitis
